import Mathlib

/-!
Verification of the CLI chatbot slice of the repository
(`cli_chatbot/chatbot.py` and `cli_chatbot/providers/*.py`), via a shallow
embedding of its data model and operations in Lean.
-/

set_option maxRecDepth 4000

/-- A single conversation turn: the dict `{"role": ..., "content": ...}`
used by `ConversationManager` (`chatbot.py`). -/
structure Turn where
  role : String
  content : String
deriving DecidableEq, Repr

/-- Python slicing `l[-n:]`: the last `n` elements, except that `l[-0:]`
is the whole list. Used by `ConversationManager.add_message`. -/
def pySliceLast (n : Nat) (l : List Turn) : List Turn :=
  if n = 0 then l else l.drop (l.length - n)

/-- Embeds `ConversationManager.add_message` (`chatbot.py` lines 49-55): append the
new turn, then if the length exceeds `max_history` keep only the last
`max_history` entries (`self.history = self.history[-self.max_history:]`). -/
def addMessage (maxHistory : Nat) (history : List Turn) (role content : String) : List Turn :=
  let h := history ++ [⟨role, content⟩]
  if h.length > maxHistory then pySliceLast maxHistory h else h

/-- Embeds `ConversationManager.clear_history` (`chatbot.py` lines 57-59). -/
def clearHistory (_history : List Turn) : List Turn := []

/-- Embeds `ConversationManager.get_history` (`chatbot.py` lines 61-63), at the level
of list values: `self.history.copy()` denotes the same sequence of turns.
(The aliasing structure of the shallow copy is modelled separately below.) -/
def getHistory (history : List Turn) : List Turn := history

/-- Run a sequence of `add_message` calls from a starting history. -/
def runAdds (maxHistory : Nat) (history : List Turn) (msgs : List (String × String)) : List Turn :=
  msgs.foldl (fun h m => addMessage maxHistory h m.1 m.2) history

/-- Turn a (role, content) pair into a `Turn` record. -/
def mkTurn (m : String × String) : Turn := ⟨m.1, m.2⟩

theorem pySliceLast_of_pos {n : Nat} (hn : 0 < n) (l : List Turn) :
    pySliceLast n l = l.drop (l.length - n) := by
  unfold pySliceLast
  simp [Nat.pos_iff_ne_zero.mp hn]

theorem addMessage_closed_form (N : Nat) (hN : 1 ≤ N) (msgs : List (String × String)) :
    runAdds N [] msgs = (msgs.map mkTurn).drop (msgs.length - N) := by
  induction msgs using List.reverseRecOn with
  | nil => simp [runAdds]
  | append_singleton ms m ih =>
    have hrun : runAdds N [] (ms ++ [m]) = addMessage N (runAdds N [] ms) m.1 m.2 := by
      simp [runAdds]
    rw [hrun, ih]
    simp only [addMessage]
    split
    · -- after appending, the length exceeds the bound: slice to the last N
      rename_i hcond
      have hNL : N ≤ ms.length := by
        simp [List.length_drop] at hcond; omega
      rw [pySliceLast_of_pos (show 0 < N by omega)]
      have e1 : ((ms.map mkTurn).drop (ms.length - N) ++ [(⟨m.1, m.2⟩ : Turn)]).length
          = N + 1 := by
        simp [List.length_drop]; omega
      rw [e1]
      have e2 : N + 1 - N = 1 := by omega
      rw [e2]
      have e3 : (1 : Nat) ≤ ((ms.map mkTurn).drop (ms.length - N)).length := by
        simp [List.length_drop]; omega
      rw [List.drop_append_of_le_length e3, List.drop_drop]
      have e4 : ((ms ++ [m]).map mkTurn) = ms.map mkTurn ++ [(⟨m.1, m.2⟩ : Turn)] := by
        simp [mkTurn]
      rw [e4]
      have e5 : (ms ++ [m]).length - N = ms.length + 1 - N := by simp
      rw [e5]
      have e6 : ms.length + 1 - N ≤ (ms.map mkTurn).length := by simp; omega
      rw [List.drop_append_of_le_length e6]
      have e7 : ms.length - N + 1 = ms.length + 1 - N := by omega
      rw [e7]
    · -- the bound is not exceeded: plain append
      rename_i hcond
      have hLN : ms.length + 1 ≤ N := by
        simp [List.length_drop] at hcond; omega
      have e0 : ms.length - N = 0 := by omega
      rw [e0, List.drop_zero]
      have e1 : (ms ++ [m]).length - N = 0 := by simp; omega
      rw [e1, List.drop_zero]
      simp [mkTurn]

theorem runAdds_length_le (N : Nat) (hN : 1 ≤ N) (msgs : List (String × String)) :
    (runAdds N [] msgs).length ≤ N := by
  rw [addMessage_closed_form N hN]
  simp [List.length_drop]
  omega

/-- C1: For every `ConversationManager` bounded at `N ≥ 1` and every sequence of
`N + k` `add_message` calls starting from the empty history, the history length
never exceeds `N` at any observable point, and the final `get_history` snapshot
is exactly the last `N` added turns in addition order (oldest retained turn
first), i.e. eviction always removes the oldest entries first. -/
theorem conversationManager_fifo_bound (N k : Nat) (msgs : List (String × String))
    (hN : 1 ≤ N) (hlen : msgs.length = N + k) :
    (∀ i : Nat, (runAdds N [] (msgs.take i)).length ≤ N) ∧
    getHistory (runAdds N [] msgs) = (msgs.map mkTurn).drop k ∧
    (getHistory (runAdds N [] msgs)).length = N := by
  refine ⟨fun i => runAdds_length_le N hN _, ?_, ?_⟩
  · rw [getHistory, addMessage_closed_form N hN, hlen]
    congr 1
    omega
  · rw [getHistory, addMessage_closed_form N hN]
    simp [List.length_drop]
    omega

/-- Witness for C1 at `N = 2`, `k = 1`, a concrete 3-message sequence. -/
theorem conversationManager_fifo_bound_witness :
    (∀ i : Nat, (runAdds 2 [] ([("user", "a"), ("assistant", "b"), ("user", "c")].take i)).length ≤ 2) ∧
    getHistory (runAdds 2 [] [("user", "a"), ("assistant", "b"), ("user", "c")])
      = ([("user", "a"), ("assistant", "b"), ("user", "c")].map mkTurn).drop 1 ∧
    (getHistory (runAdds 2 [] [("user", "a"), ("assistant", "b"), ("user", "c")])).length = 2 :=
  conversationManager_fifo_bound 2 1 [("user", "a"), ("assistant", "b"), ("user", "c")]
    (by decide) (by decide)

/-- Heap-level model of the Python objects involved in `get_history`
(`chatbot.py` lines 61-63): `turnHeap` holds the turn dict objects,
`listHeap` holds the list objects, and a list object holds addresses of
turn objects. `self.history.copy()` is a shallow copy: a fresh list object
whose elements are the same turn-object addresses. -/
structure PyState where
  turnHeap : List Turn
  listHeap : List (List Nat)
deriving DecidableEq, Repr

/-- The contents (turn-object addresses) of the list object at `addr`. -/
def listContents (s : PyState) (addr : Nat) : List Nat :=
  s.listHeap.getD addr []

/-- Embeds `ConversationManager.get_history`: `self.history.copy()` allocates a new
list object with the same element addresses and returns its address. -/
def getHistoryOp (s : PyState) (mAddr : Nat) : PyState × Nat :=
  ({ s with listHeap := s.listHeap ++ [listContents s mAddr] }, s.listHeap.length)

/-- Caller mutation of a list object: replace element `i` by address `v`. -/
def listSetOp (s : PyState) (addr i v : Nat) : PyState :=
  { s with listHeap := s.listHeap.set addr ((listContents s addr).set i v) }

/-- Caller mutation of a list object: append address `v`. -/
def listAppendOp (s : PyState) (addr v : Nat) : PyState :=
  { s with listHeap := s.listHeap.set addr (listContents s addr ++ [v]) }

/-- Caller mutation of a turn record object in place (e.g. assigning to a key
of one of the dicts contained in the returned list). -/
def turnSetOp (s : PyState) (a : Nat) (t : Turn) : PyState :=
  { s with turnHeap := s.turnHeap.set a t }

/-- The sequence of turns the history of the manager denotes in a heap state. -/
def managerView (s : PyState) (mAddr : Nat) : List Turn :=
  (listContents s mAddr).map (fun a => s.turnHeap.getD a ⟨"", ""⟩)

theorem listGetD_append_lt {α : Type} (l l' : List α) (j : Nat) (d : α)
    (h : j < l.length) : (l ++ l').getD j d = l.getD j d := by
  induction l generalizing j with
  | nil => simp at h
  | cons a t ih =>
    cases j with
    | zero => simp
    | succ n =>
      simp only [List.cons_append, List.getD_cons_succ]
      exact ih n (by simpa using h)

theorem listGetD_concat_self {α : Type} (l : List α) (x d : α) :
    (l ++ [x]).getD l.length d = x := by
  induction l with
  | nil => simp
  | cons a t ih => simp [ih]

theorem listGetD_set_ne {α : Type} (l : List α) (i j : Nat) (x d : α)
    (h : i ≠ j) : (l.set i x).getD j d = l.getD j d := by
  induction l generalizing i j with
  | nil => simp
  | cons a t ih =>
    cases i with
    | zero =>
      cases j with
      | zero => exact absurd rfl h
      | succ j' => simp
    | succ i' =>
      cases j with
      | zero => simp
      | succ j' =>
        simp only [List.set_cons_succ, List.getD_cons_succ]
        exact ih i' j' (by omega)

/-- C3 counterexample: mutating a turn record reachable from the value returned
by `get_history` does change the internal history of the manager, because the copy
is shallow. Concretely: manager history is one turn `{"user", "hi"}`; after
`get_history` the caller mutates the turn record at the address stored in the
returned copy, and the view held by the manager changes. -/
theorem getHistory_shallow_copy_counterexample :
    managerView
      (turnSetOp (getHistoryOp ⟨[⟨"user", "hi"⟩], [[0]]⟩ 0).1
        ((listContents (getHistoryOp ⟨[⟨"user", "hi"⟩], [[0]]⟩ 0).1
          (getHistoryOp ⟨[⟨"user", "hi"⟩], [[0]]⟩ 0).2).getD 0 0)
        ⟨"user", "changed"⟩) 0
      ≠ managerView ⟨[⟨"user", "hi"⟩], [[0]]⟩ 0 := by
  decide

/-- C3 amended: `get_history` returns a shallow copy. The returned list object
is fresh (distinct from the list object of the manager) and mutations of the
returned list itself — replacing or appending elements — leave the internal
history unchanged; but the copy shares its turn-record addresses with the
manager, so mutating a contained turn record (see the counterexample) is
visible through the manager. -/
theorem getHistory_shallow_copy (s : PyState) (mAddr : Nat)
    (h : mAddr < s.listHeap.length) :
    (getHistoryOp s mAddr).2 ≠ mAddr ∧
    listContents (getHistoryOp s mAddr).1 (getHistoryOp s mAddr).2 = listContents s mAddr ∧
    (∀ i v : Nat,
      managerView (listSetOp (getHistoryOp s mAddr).1 (getHistoryOp s mAddr).2 i v) mAddr
        = managerView s mAddr) ∧
    (∀ v : Nat,
      managerView (listAppendOp (getHistoryOp s mAddr).1 (getHistoryOp s mAddr).2 v) mAddr
        = managerView s mAddr) := by
  refine ⟨by simp [getHistoryOp]; omega, ?_, ?_, ?_⟩
  · simp only [getHistoryOp, listContents]
    exact listGetD_concat_self _ _ _
  · intro i v
    simp only [managerView, listSetOp, getHistoryOp, listContents]
    rw [listGetD_set_ne _ _ _ _ _ (by omega)]
    rw [listGetD_append_lt _ _ _ _ h]
  · intro v
    simp only [managerView, listAppendOp, getHistoryOp, listContents]
    rw [listGetD_set_ne _ _ _ _ _ (by omega)]
    rw [listGetD_append_lt _ _ _ _ h]

/-- Witness for the amended C3 theorem at a concrete one-turn state. -/
theorem getHistory_shallow_copy_witness :
    (getHistoryOp ⟨[⟨"user", "hi"⟩], [[0]]⟩ 0).2 ≠ 0 ∧
    listContents (getHistoryOp ⟨[⟨"user", "hi"⟩], [[0]]⟩ 0).1
        (getHistoryOp ⟨[⟨"user", "hi"⟩], [[0]]⟩ 0).2
      = listContents ⟨[⟨"user", "hi"⟩], [[0]]⟩ 0 ∧
    managerView
        (listSetOp (getHistoryOp ⟨[⟨"user", "hi"⟩], [[0]]⟩ 0).1
          (getHistoryOp ⟨[⟨"user", "hi"⟩], [[0]]⟩ 0).2 0 5) 0
      = managerView ⟨[⟨"user", "hi"⟩], [[0]]⟩ 0 ∧
    managerView
        (listAppendOp (getHistoryOp ⟨[⟨"user", "hi"⟩], [[0]]⟩ 0).1
          (getHistoryOp ⟨[⟨"user", "hi"⟩], [[0]]⟩ 0).2 7) 0
      = managerView ⟨[⟨"user", "hi"⟩], [[0]]⟩ 0 :=
  ⟨(getHistory_shallow_copy ⟨[⟨"user", "hi"⟩], [[0]]⟩ 0 (by decide)).1,
   (getHistory_shallow_copy ⟨[⟨"user", "hi"⟩], [[0]]⟩ 0 (by decide)).2.1,
   (getHistory_shallow_copy ⟨[⟨"user", "hi"⟩], [[0]]⟩ 0 (by decide)).2.2.1 0 5,
   (getHistory_shallow_copy ⟨[⟨"user", "hi"⟩], [[0]]⟩ 0 (by decide)).2.2.2 7⟩

/-- The Python whitespace test for `str.strip` / `\s`, over the ASCII range
(space, tab, newline, carriage return, vertical tab, form feed). -/
def isPySpace (c : Char) : Bool :=
  c == ' ' || c == '\t' || c == '\n' || c == '\r' || c == Char.ofNat 11 || c == Char.ofNat 12

/-- Python `str.strip()` on a character list: drop whitespace at both ends. -/
def pyStripChars (l : List Char) : List Char :=
  ((l.dropWhile isPySpace).reverse.dropWhile isPySpace).reverse

/-- Python `str.strip()`. -/
def pyStrip (s : String) : String := ⟨pyStripChars s.data⟩

/-- Python `str.lower()` (ASCII letters; the keyword patterns and
commands of the repository are ASCII). -/
def pyLower (s : String) : String := ⟨s.data.map Char.toLower⟩

/-- Split a list at the first occurrence of `sep`: returns the part before the
occurrence and the part after it, or `none` if `sep` does not occur. -/
def splitFirst (sep : List Char) : List Char → Option (List Char × List Char)
  | [] => none
  | c :: rest =>
    if sep.isPrefixOf (c :: rest) then some ([], (c :: rest).drop sep.length)
    else
      match splitFirst sep rest with
      | none => none
      | some (pre, post) => some (c :: pre, post)

/-- Fuelled worker for Python `str.split(sep)` (the fuel is an upper bound on
the number of separator occurrences; `length + 1` always suffices for a
non-empty separator). -/
def splitOnCharsF (sep : List Char) : Nat → List Char → List (List Char)
  | 0, l => [l]
  | fuel + 1, l =>
    match splitFirst sep l with
    | none => [l]
    | some (pre, post) => pre :: splitOnCharsF sep fuel post

/-- Python `str.split(sep)` for a non-empty separator. -/
def pySplit (s sep : String) : List String :=
  (splitOnCharsF sep.data (s.data.length + 1) s.data).map (fun l => ⟨l⟩)

/-- Fuelled worker for Python `str.replace(pat, rep)`: replace non-overlapping
occurrences left to right. -/
def replaceCharsF (pat rep : List Char) : Nat → List Char → List Char
  | 0, l => l
  | fuel + 1, l =>
    match splitFirst pat l with
    | none => l
    | some (pre, post) => pre ++ rep ++ replaceCharsF pat rep fuel post

/-- Python `str.replace(pat, rep)` for a non-empty pattern. -/
def pyReplace (s pat rep : String) : String :=
  ⟨replaceCharsF pat.data rep.data (s.data.length + 1) s.data⟩

/-- Contiguous-sublist (infix) test on character lists. -/
def containsChars (pat : List Char) : List Char → Bool
  | [] => pat.isEmpty
  | c :: t => pat.isPrefixOf (c :: t) || containsChars pat t

/-- The Python `in` operator on strings: substring containment. -/
def strContains (s pat : String) : Bool :=
  containsChars pat.data s.data

/-- The reserved commands recognised by `ChatBot.handle_command`
(`chatbot.py` lines 163-193). -/
def commandList : List String :=
  ["exit", "quit", "clear", "history", "save", "help", "config"]

/-- The mutable state of `ChatBot.chat_loop`: the conversation history and the
`self.running` flag. -/
structure LoopState where
  history : List Turn
  running : Bool
deriving DecidableEq, Repr

/-- Embeds `ChatBot.handle_command` (`chatbot.py` lines 163-193), given the already
lowercased and stripped command: `exit`/`quit` stop the loop, `clear` empties
the history, and the display commands (`history`, `save`, `help`, `config`)
leave the state unchanged; the second component is the principal console line
printed (display output of state is not re-modelled here). -/
def handleCommand (st : LoopState) (command : String) : LoopState × List String :=
  if command = "exit" ∨ command = "quit" then
    ({ st with running := false }, ["👋 Goodbye!"])
  else if command = "clear" then
    ({ st with history := clearHistory st.history }, ["🧹 Conversation history cleared!"])
  else
    (st, [])

/-- One iteration of `ChatBot.chat_loop` (`chatbot.py` lines 203-232) on a read
input line, with the outcome of the provider call passed explicitly: `.ok r` when
`provider.chat` returns `r`, `.error e` when it raises an exception whose text
is `e`. Returns the next loop state and the console lines printed: blank input
is skipped, commands are dispatched, and otherwise the user turn is added, the
provider is invoked, and on success the assistant turn is added and displayed
while on exception only the error line is printed. -/
def chatStep (maxHistory : Nat) (st : LoopState) (input : String)
    (providerResult : Except String String) : LoopState × List String :=
  if pyStrip input = "" then (st, [])
  else if (pyStrip (pyLower input)) ∈ commandList then
    handleCommand st (pyStrip (pyLower input))
  else
    let h1 := addMessage maxHistory st.history "user" input
    match providerResult with
    | .ok response =>
        ({ history := addMessage maxHistory h1 "assistant" response,
           running := st.running },
         ["AI:", response])
    | .error e =>
        ({ history := h1, running := st.running },
         ["❌ Error getting AI response: " ++ e])

/-- C2 counterexample: in `chat_loop`, when the provider raises on the
non-command input "Tell me a joke" (bound 10, empty history), the resulting
history is only the user turn — no assistant turn carrying a fallback warning
is recorded, contrary to the claim. -/
theorem chatLoop_error_no_assistant_counterexample :
    (chatStep 10 ⟨[], true⟩ "Tell me a joke" (Except.error "boom")).1.history
        = [⟨"user", "Tell me a joke"⟩] ∧
    ((chatStep 10 ⟨[], true⟩ "Tell me a joke" (Except.error "boom")).1.history.all
        (fun t => t.role != "assistant")) = true := by
  constructor
  · rfl
  · rfl

/-- C2 amended: when the chat call of the provider raises an exception for a
non-command user input, the error is caught at the call site and reported as a
visible error line containing the error text, the session continues (the
running flag is unchanged), and the history retains the original user message;
but no assistant turn is recorded for that exchange. -/
theorem chatLoop_provider_error (maxH : Nat) (st : LoopState) (input e : String)
    (hne : pyStrip input ≠ "") (hcmd : (pyStrip (pyLower input)) ∉ commandList) :
    (chatStep maxH st input (Except.error e)).1.history
        = addMessage maxH st.history "user" input ∧
    (chatStep maxH st input (Except.error e)).1.running = st.running ∧
    (chatStep maxH st input (Except.error e)).2
        = ["❌ Error getting AI response: " ++ e] := by
  refine ⟨?_, ?_, ?_⟩ <;> simp [chatStep, hne, hcmd]

/-- Witness for the amended C2 theorem at a concrete input. -/
theorem chatLoop_provider_error_witness :
    (chatStep 10 ⟨[], true⟩ "Tell me a joke" (Except.error "boom")).1.history
        = addMessage 10 [] "user" "Tell me a joke" ∧
    (chatStep 10 ⟨[], true⟩ "Tell me a joke" (Except.error "boom")).1.running = true ∧
    (chatStep 10 ⟨[], true⟩ "Tell me a joke" (Except.error "boom")).2
        = ["❌ Error getting AI response: " ++ "boom"] :=
  chatLoop_provider_error 10 ⟨[], true⟩ "Tell me a joke" "boom" (by decide) (by decide)

/-- The apostrophe character, as a string. -/
def q : String := String.singleton (Char.ofNat 39)

/-- Embeds `SimpleProvider.responses["greeting"]` (`simple_provider.py` lines 18-23). -/
def greetingResponses : List String :=
  ["Hello! How can I help you today?",
   "Hi there! What would you like to talk about?",
   s!"Hey! I{q}m here to chat with you.",
   "Greetings! How are you doing?"]

/-- Embeds `SimpleProvider.responses["goodbye"]` (lines 24-29). -/
def goodbyeResponses : List String :=
  ["Goodbye! It was nice chatting with you.",
   "See you later! Have a great day!",
   "Bye! Feel free to come back anytime.",
   "Take care! Until next time!"]

/-- Embeds `SimpleProvider.responses["how_are_you"]` (lines 30-35). -/
def howAreYouResponses : List String :=
  [s!"I{q}m doing well, thank you for asking! How are you?",
   s!"I{q}m great! Thanks for checking in. How about you?",
   s!"I{q}m doing fine! What about yourself?",
   s!"All good here! How{q}s your day going?"]

/-- Embeds `SimpleProvider.responses["name"]` (lines 36-41). -/
def nameResponses : List String :=
  [s!"I{q}m a simple AI chatbot! You can call me Bot.",
   s!"I{q}m your friendly AI assistant. What{q}s your name?",
   s!"I{q}m a chatbot created to help and chat with you!",
   s!"I{q}m an AI assistant. Nice to meet you!"]

/-- Embeds `SimpleProvider.responses["help"]` (lines 42-47). -/
def helpResponses : List String :=
  [s!"I{q}m here to chat with you! Ask me anything - about programming, general questions, or just have a conversation.",
   "I can help with various topics like coding, writing, or just casual conversation. What interests you?",
   s!"Feel free to ask me questions about technology, programming, or anything else you{q}d like to discuss!",
   s!"I{q}m here to assist! Whether you need help with code, want to brainstorm ideas, or just chat, I{q}m ready."]

/-- Embeds `SimpleProvider.responses["programming"]` (lines 48-53). -/
def programmingResponses : List String :=
  ["Programming is fascinating! What language are you working with?",
   "I love talking about code! Are you working on any interesting projects?",
   "Programming can be challenging but rewarding. What are you trying to build?",
   s!"Code is like poetry - it should be elegant and functional. What{q}s your favorite language?"]

/-- Embeds `SimpleProvider.responses["default"]` (lines 54-62). -/
def defaultResponses : List String :=
  [s!"That{q}s interesting! Tell me more about that.",
   "I see! What do you think about that?",
   s!"Hmm, that{q}s a good point. Can you elaborate?",
   s!"That sounds intriguing! What{q}s your take on it?",
   s!"I{q}d love to hear more about your thoughts on this.",
   s!"That{q}s a fascinating topic! What got you interested in it?",
   "Interesting perspective! How did you come to that conclusion?"]

/-- Embeds `SimpleProvider.responses` as a lookup by category name. -/
def responsesFor (category : String) : List String :=
  if category = "greeting" then greetingResponses
  else if category = "goodbye" then goodbyeResponses
  else if category = "how_are_you" then howAreYouResponses
  else if category = "name" then nameResponses
  else if category = "help" then helpResponses
  else if category = "programming" then programmingResponses
  else if category = "default" then defaultResponses
  else []

/-- The literal alternatives of `SimpleProvider.patterns["greeting"]`
(line 66): the regex is `\b(alt|...)\b`. -/
def greetingKeywords : List String :=
  ["hello", "hi", "hey", "greetings", "good morning", "good afternoon", "good evening"]

/-- The alternatives of `SimpleProvider.patterns["goodbye"]` (line 67). -/
def goodbyeKeywords : List String :=
  ["bye", "goodbye", "see you", "farewell", "take care", "later"]

/-- The alternatives of `SimpleProvider.patterns["how_are_you"]` (line 68). -/
def howAreYouKeywords : List String :=
  ["how are you", s!"how{q}re you", "how do you do", s!"what{q}s up", s!"how{q}s it going"]

/-- The alternatives of `SimpleProvider.patterns["name"]` (line 69). -/
def nameKeywords : List String :=
  [s!"what{q}s your name", "who are you", "what are you", "your name"]

/-- The alternatives of `SimpleProvider.patterns["help"]` (line 70). -/
def helpKeywords : List String :=
  ["help", "assist", "support", "what can you do"]

/-- The alternatives of `SimpleProvider.patterns["programming"]` (line 71). -/
def programmingKeywords : List String :=
  ["code", "coding", "program", "programming", "python", "javascript", "java",
   "c++", "html", "css", "sql", "algorithm", "function", "variable", "loop", "debug"]

/-- Embeds `SimpleProvider.patterns` in its insertion (= iteration) order
(lines 65-72). -/
def patternsList : List (String × List String) :=
  [("greeting", greetingKeywords), ("goodbye", goodbyeKeywords),
   ("how_are_you", howAreYouKeywords), ("name", nameKeywords),
   ("help", helpKeywords), ("programming", programmingKeywords)]

/-- A regex word character (`\w` = `[A-Za-z0-9_]` for the ASCII inputs the
patterns target). -/
def isWordChar (c : Char) : Bool := c.isAlphanum || c == '_'

/-- Whether an optional neighbouring character is a word character (absent
neighbours, at the ends of the string, count as non-word). -/
def wordOpt : Option Char → Bool
  | none => false
  | some c => isWordChar c

/-- Whether the regex `\b kw \b` (with `kw` a literal alternative) matches at a
fixed position of the subject: `kw` is a literal prefix of the remaining
characters `s`, and the `\b` assertions hold on both sides, `prev` being the
character immediately before the position. -/
def matchKeywordAt (kw : List Char) (prev : Option Char) (s : List Char) : Bool :=
  match kw with
  | [] => false
  | k0 :: _ =>
    kw.isPrefixOf s &&
    (wordOpt prev != isWordChar k0) &&
    (match kw.getLast? with
     | none => false
     | some kl => isWordChar kl != wordOpt (s.drop kw.length).head?)

/-- Embeds `re.search` for a pattern `\b(a1|a2|...)\b` of literal alternatives: scan
every position of the subject for a match of some alternative. -/
def searchKeywordsAux (kws : List (List Char)) : Option Char → List Char → Bool
  | prev, [] => kws.any (fun kw => matchKeywordAt kw prev [])
  | prev, c :: rest =>
    kws.any (fun kw => matchKeywordAt kw prev (c :: rest)) ||
    searchKeywordsAux kws (some c) rest

/-- Embeds `re.search(pattern, subject)` for one of the keyword patterns. -/
def reSearchWords (kws : List String) (subject : String) : Bool :=
  searchKeywordsAux (kws.map String.data) none subject.data

/-- The loop of `SimpleProvider._classify_message` over the ordered patterns. -/
def classifyAux : List (String × List String) → String → String
  | [], _ => "default"
  | (cat, kws) :: rest, ml =>
    if reSearchWords kws ml then cat else classifyAux rest ml

/-- Embeds `SimpleProvider._classify_message` (lines 74-82): lowercase the message and
return the first category whose pattern matches, `"default"` if none does. -/
def classifyMessage (message : String) : String :=
  classifyAux patternsList (pyLower message)

/-- The literal alternatives of the name-introduction regex
(the contracted i-am form, i am, my name is, call me, then whitespace and a captured word) in
`SimpleProvider._get_contextual_response` (line 90). -/
def nameIntroAlternatives : List String :=
  [s!"i{q}m", "i am", "my name is", "call me"]

/-- Case-insensitive literal match (the regex carries `re.IGNORECASE`): if
`p` is a prefix of `s` up to case, return the characters after it. -/
def matchLiteralCI : List Char → List Char → Option (List Char)
  | [], s => some s
  | _ :: _, [] => none
  | p :: ps, c :: cs =>
    if p.toLower == c.toLower then matchLiteralCI ps cs else none

/-- Match `\s+(\w+)` against `rest`: at least one whitespace character, then
capture a maximal non-empty run of word characters. -/
def captureNameAfter (rest : List Char) : Option (List Char) :=
  if (rest.takeWhile isPySpace).isEmpty then none
  else
    let w := (rest.dropWhile isPySpace).takeWhile isWordChar
    if w.isEmpty then none else some w

/-- Try the name-introduction pattern at one position: the leading `\b`
requires the previous character to be a non-word character (every alternative
starts with a word character), then the alternatives are tried in order. -/
def tryNameAt (prev : Option Char) (s : List Char) : Option (List Char) :=
  if wordOpt prev then none
  else
    (nameIntroAlternatives.map String.data).findSome? (fun p =>
      match matchLiteralCI p s with
      | none => none
      | some rest => captureNameAfter rest)

/-- Embeds `re.search` for the name-introduction pattern: leftmost position wins. -/
def searchNameAux : Option Char → List Char → Option (List Char)
  | _, [] => none
  | prev, c :: rest =>
    match tryNameAt prev (c :: rest) with
    | some w => some w
    | none => searchNameAux (some c) rest

/-- The name captured by the name-introduction regex in one message, if any. -/
def searchNameIn (content : String) : Option String :=
  (searchNameAux none content.data).map (fun l => ⟨l⟩)

/-- The scan of `reversed(history[-5:])` in `_get_contextual_response`
(lines 87-93): the first user message (most recent first) whose content
matches the name-introduction pattern yields the name. -/
def findUserName : List Turn → Option String
  | [] => none
  | t :: rest =>
    if t.role = "user" then
      match searchNameIn t.content with
      | some n => some n
      | none => findUserName rest
    else findUserName rest

/-- The user name `_get_contextual_response` extracts from the last five
history entries, scanned most recent first. -/
def extractUserName (history : List Turn) : Option String :=
  findUserName (history.reverse.take 5)

/-- The personalisation target "How are you?" (line 100). -/
def howAreYouQ : String := "How are you?"

/-- The personalisation target "How about you?" (line 101). -/
def howAboutYouQ : String := "How about you?"

/-- Embeds `SimpleProvider._get_contextual_response` (lines 84-103), with the
`random.choice` draw supplied as an index: the chosen response is
`pool[respIdx % len(pool)]`. If a user name was found and the category is
`greeting` or `how_are_you`, the two question templates are personalised. -/
def getContextualResponse (message : String) (history : List Turn) (respIdx : Nat) : String :=
  let category := classifyMessage message
  let pool := responsesFor category
  let response := pool.getD (respIdx % pool.length) ""
  match extractUserName history with
  | some nm =>
    if category = "greeting" ∨ category = "how_are_you" then
      pyReplace (pyReplace response howAreYouQ s!"How are you, {nm}?")
        howAboutYouQ s!"How about you, {nm}?"
    else response
  | none => response

/-- The variety prefixes of `SimpleProvider.chat` (lines 117-121). -/
def varietyResponses : List String :=
  [s!"We{q}ve been chatting for a while! ",
   s!"I{q}m enjoying our conversation! ",
   "This has been a great chat! "]

/-- The fixed clarifying reply for empty or very short messages (line 110). -/
def clarifyText : String :=
  s!"I didn{q}t quite catch that. Could you say that again?"

/-- Embeds `SimpleProvider.chat` (lines 105-128), with the random draws supplied
explicitly: `respIdx` indexes the category pool, `varietyHit` is
`random.random() < 0.3`, and `varietyIdx` indexes the variety pool. The
surrounding try/except never fires in this pure model. -/
def simpleChat (message : String) (history : List Turn)
    (respIdx : Nat) (varietyHit : Bool) (varietyIdx : Nat) : String :=
  if pyStrip message = "" ∨ (pyStrip message).length < 2 then clarifyText
  else
    let response := getContextualResponse message history respIdx
    if 10 < history.length ∧ varietyHit then
      varietyResponses.getD (varietyIdx % varietyResponses.length) "" ++ response
    else response

/-- Embeds `SimpleProvider.is_available` (lines 130-132). -/
def simpleIsAvailable : Bool := true

/-- The `"Assistant:"` transcript marker of `HuggingFaceProvider`. -/
def assistantMarker : String := "Assistant:"

/-- The `"Human:"` transcript marker of `HuggingFaceProvider`. -/
def humanMarker : String := "Human:"

/-- The fallback used when extraction yields empty text
(`huggingface_provider.py` line 122). -/
def hfEmptyFallback : String :=
  s!"I{q}m not sure how to respond to that. Could you try rephrasing your question?"

/-- The reply used when the generated text has no `"Assistant:"` marker
(line 126). -/
def hfTroubleMsg : String :=
  s!"I{q}m having trouble generating a response. Please try again."

/-- The extraction pipeline of `HuggingFaceProvider.chat` (lines 115-119):
take the text after the last `"Assistant:"`, strip it, cut at the next
`"Human:"`, strip, cut at the next newline, strip. -/
def hfExtractCore (generated : String) : String :=
  let r1 := pyStrip ((pySplit generated assistantMarker).getLastD "")
  let r2 := pyStrip ((pySplit r1 humanMarker).headD "")
  pyStrip ((pySplit r2 "\n").headD "")

/-- The response extraction of `HuggingFaceProvider.chat` (lines 110-126):
if the generated text contains `"Assistant:"`, run the extraction pipeline and
substitute the fixed fallback when it yields empty text; otherwise report
trouble generating a response. -/
def hfExtract (generated : String) : String :=
  if strContains generated assistantMarker then
    let response := hfExtractCore generated
    if response = "" then hfEmptyFallback else response
  else hfTroubleMsg

/-- The quota warning of `GeminiProvider.chat` (line 113). -/
def quotaMsg : String :=
  "⚠️ API quota exceeded. Please try again later or switch to the local Hugging Face provider."

/-- The authentication warning of `GeminiProvider.chat` (line 115). -/
def authMsg : String :=
  "⚠️ API authentication failed. Please check your GOOGLE_API_KEY in the .env file."

/-- The safety-filter warning of `GeminiProvider.chat` (line 117). -/
def safetyMsg : String :=
  "⚠️ Response was blocked due to safety filters. Please try rephrasing your question."

/-- The error classification in the except branch of `GeminiProvider.chat`
(lines 108-119): inspect the lowercased error text for tell-tale substrings
and return the corresponding user-facing warning. -/
def geminiErrorReply (e : String) : String :=
  let em := pyLower e
  if strContains em "quota" || strContains em "limit" then quotaMsg
  else if strContains em "api_key" || strContains em "authentication" then authMsg
  else if strContains em "safety" then safetyMsg
  else "⚠️ API error: " ++ e

/-- Embeds `GeminiProvider.chat` (lines 82-119) with the outcome of the network call passed
explicitly: if the model is not initialised the call raises
(`Except.error`); otherwise an API success is returned as is, and an API
exception with text `e` is caught and returned as `geminiErrorReply e`
instead of propagating. -/
def geminiChat (modelReady : Bool) (apiResult : Except String String) :
    Except String String :=
  if !modelReady then Except.error "Gemini model not initialized"
  else
    match apiResult with
    | .ok text => .ok text
    | .error e => .ok (geminiErrorReply e)

/-- Embeds `GeminiProvider._rate_limit` (`gemini_provider.py` lines 51-60) on an
injectable exact clock: `last` is `self.last_request_time`, `now` the value of
`time.time()` at entry. Returns the duration slept and the dispatch time (the
value of `time.time()` after sleeping, which the code stores back into
`self.last_request_time`). -/
def rateLimit (minInterval last now : ℚ) : ℚ × ℚ :=
  let timeSince := now - last
  let sleepTime := if timeSince < minInterval then minInterval - timeSince else 0
  (sleepTime, now + sleepTime)

/-- Embeds `self.min_request_interval = 1.0` (line 27). -/
def minRequestInterval : ℚ := 1

theorem isPrefixOf_self_char (l : List Char) : l.isPrefixOf l = true := by
  induction l with
  | nil => rfl
  | cons c t ih => simp [List.isPrefixOf, ih]

theorem containsChars_append_self (pre pat : List Char) :
    containsChars pat (pre ++ pat) = true := by
  induction pre with
  | nil =>
    cases pat with
    | nil => rfl
    | cons c t =>
      simp only [List.nil_append, containsChars]
      rw [isPrefixOf_self_char]
      simp
  | cons c pre ih =>
    simp only [List.cons_append, containsChars]
    have ih2 : containsChars pat (pre.append pat) = true := ih
    rw [ih2]
    simp

theorem getContextualResponse_noName (m : String) (hist : List Turn) (r : Nat)
    (hname : extractUserName hist = none) :
    getContextualResponse m hist r
      = (responsesFor (classifyMessage m)).getD
          (r % (responsesFor (classifyMessage m)).length) "" := by
  simp only [getContextualResponse, hname]

theorem simpleChat_hello_eq (r vI : Nat) (vH : Bool) :
    simpleChat "hello" [] r vH vI = greetingResponses.getD (r % 4) "" := by
  unfold simpleChat
  rw [if_neg (by decide : ¬(pyStrip "hello" = "" ∨ (pyStrip "hello").length < 2))]
  rw [if_neg (by simp : ¬(10 < ([] : List Turn).length ∧ vH = true))]
  rw [getContextualResponse_noName "hello" [] r (by decide)]
  rw [show classifyMessage "hello" = "greeting" from by decide]
  rfl

/-- C4: For the rule-based provider, `chat("hello", [])` returns a non-empty
string from the fixed greeting pool (whatever the random draws), and both
`chat("", [])` and `chat(" ", [])` return the fixed clarifying text. -/
theorem simpleProvider_basic_replies (r vI : Nat) (vH : Bool) :
    (simpleChat "hello" [] r vH vI ∈ greetingResponses ∧
     simpleChat "hello" [] r vH vI ≠ "") ∧
    simpleChat "" [] r vH vI = clarifyText ∧
    simpleChat " " [] r vH vI = clarifyText := by
  refine ⟨?_, ?_, ?_⟩
  · rw [simpleChat_hello_eq r vI vH]
    have hb : r % 4 < 4 := Nat.mod_lt r (by decide)
    generalize hgen : r % 4 = n at hb ⊢
    interval_cases n <;> exact ⟨by decide, by decide⟩
  · unfold simpleChat
    rw [if_pos (by decide : pyStrip "" = "" ∨ (pyStrip "").length < 2)]
  · unfold simpleChat
    rw [if_pos (by decide : pyStrip " " = "" ∨ (pyStrip " ").length < 2)]

/-- C5: The rule-based classification is order-sensitive with first-match-wins
over the fixed category order greeting, goodbye, how_are_you, name, help,
programming, falling back to `default`; in particular `"hello bye"` matches
both the greeting and the goodbye pattern and is classified as greeting. -/
theorem classifyMessage_first_match (m : String) :
    classifyMessage m =
      (if reSearchWords greetingKeywords (pyLower m) then "greeting"
       else if reSearchWords goodbyeKeywords (pyLower m) then "goodbye"
       else if reSearchWords howAreYouKeywords (pyLower m) then "how_are_you"
       else if reSearchWords nameKeywords (pyLower m) then "name"
       else if reSearchWords helpKeywords (pyLower m) then "help"
       else if reSearchWords programmingKeywords (pyLower m) then "programming"
       else "default") ∧
    classifyMessage "hello bye" = "greeting" ∧
    reSearchWords greetingKeywords (pyLower "hello bye") = true ∧
    reSearchWords goodbyeKeywords (pyLower "hello bye") = true := by
  refine ⟨?_, by decide, by decide, by decide⟩
  simp only [classifyMessage, patternsList, classifyAux]

/-- C10: any message whose stripped content has length < 2 — including a
single non-whitespace character — gets the fixed clarifying reply, for every
history and every random draw. -/
theorem simpleChat_short_message (m : String) (hist : List Turn)
    (r vI : Nat) (vH : Bool) (h : (pyStrip m).length < 2) :
    simpleChat m hist r vH vI = clarifyText := by
  unfold simpleChat
  rw [if_pos (Or.inr h)]

/-- Witness for C10 at the single-character message `"a"` with a non-trivial
history. -/
theorem simpleChat_short_message_witness :
    simpleChat "a" [⟨"user", "hello there"⟩] 3 true 1 = clarifyText :=
  simpleChat_short_message "a" [⟨"user", "hello there"⟩] 3 1 true (by decide)

/-- A history whose last five entries include a user turn introducing the name
Sam. -/
def samHistory : List Turn := [⟨"user", "my name is Sam"⟩]

/-- Whether a reply still carries one of the two name placeholders that
`_get_contextual_response` personalises. -/
def hasNamePlaceholder (s : String) : Bool :=
  strContains s howAreYouQ || strContains s howAboutYouQ

theorem getContextualResponse_greeting_withName (m : String) (hist : List Turn)
    (r : Nat) (nm : String) (hname : extractUserName hist = some nm)
    (hcat : classifyMessage m = "greeting") :
    getContextualResponse m hist r
      = pyReplace (pyReplace (greetingResponses.getD (r % 4) "")
          howAreYouQ s!"How are you, {nm}?")
          howAboutYouQ s!"How about you, {nm}?" := by
  simp only [getContextualResponse, hname, hcat]
  rw [if_pos (Or.inl trivial)]
  rfl

/-- C9: with "my name is Sam" among the last five history entries, every
greeting-classified reply that carries a name placeholder contains "Sam"
(the extraction does find Sam; the implication is stated as a boolean). -/
theorem simpleProvider_name_personalisation (m : String) (r : Nat)
    (h : classifyMessage m = "greeting") :
    extractUserName samHistory = some "Sam" ∧
    (!(hasNamePlaceholder (getContextualResponse m samHistory r))
      || strContains (getContextualResponse m samHistory r) "Sam") = true := by
  have hname : extractUserName samHistory = some "Sam" := by decide
  refine ⟨hname, ?_⟩
  rw [getContextualResponse_greeting_withName m samHistory r "Sam" hname h]
  have hb : r % 4 < 4 := Nat.mod_lt r (by decide)
  generalize hgen : r % 4 = n at hb ⊢
  interval_cases n <;> decide

/-- Witness for C9 at the greeting message `"hello"`. -/
theorem simpleProvider_name_personalisation_witness :
    extractUserName samHistory = some "Sam" ∧
    (!(hasNamePlaceholder (getContextualResponse "hello" samHistory 0))
      || strContains (getContextualResponse "hello" samHistory 0) "Sam") = true :=
  simpleProvider_name_personalisation "hello" 0 (by decide)

/-- C6: the local-inference extraction on a raw output whose text after the
last "Assistant:" marker is "Sure, here you go\nHuman: thanks" yields exactly
"Sure, here you go"; and whenever the extraction pipeline yields empty text,
the fixed clarifying-question fallback is returned instead. -/
theorem hfExtract_spec (g : String)
    (h1 : strContains g assistantMarker = true) (h2 : hfExtractCore g = "") :
    hfExtract "Human: please\nAssistant: Sure, here you go\nHuman: thanks"
        = "Sure, here you go" ∧
    hfExtract g = hfEmptyFallback := by
  refine ⟨by decide, ?_⟩
  unfold hfExtract
  rw [if_pos h1]
  simp [h2]

/-- Witness for C6 at the raw output `"Assistant:"`, where extraction is
empty. -/
theorem hfExtract_spec_witness :
    hfExtract "Human: please\nAssistant: Sure, here you go\nHuman: thanks"
        = "Sure, here you go" ∧
    hfExtract "Assistant:" = hfEmptyFallback :=
  hfExtract_spec "Assistant:" (by decide) (by decide)

/-- C7: when the API call raises with text `e`, `GeminiProvider.chat` returns
(instead of propagating) a warning chosen by substring inspection of the
lowercased error text — quota/limit, then api_key/authentication, then safety,
else a generic warning that contains the raw error text. -/
theorem geminiChat_error_classification (e : String) :
    geminiChat true (Except.error e) = Except.ok (geminiErrorReply e) ∧
    geminiErrorReply e =
      (if strContains (pyLower e) "quota" || strContains (pyLower e) "limit" then
        quotaMsg
       else if strContains (pyLower e) "api_key" || strContains (pyLower e) "authentication" then
        authMsg
       else if strContains (pyLower e) "safety" then safetyMsg
       else "⚠️ API error: " ++ e) ∧
    strContains ("⚠️ API error: " ++ e) e = true := by
  refine ⟨rfl, rfl, ?_⟩
  exact containsChars_append_self ("⚠️ API error: ").data e.data

/-- C8: two consecutive calls whose second enters `_rate_limit` less than the
minimum interval after the dispatch time `t1` of the first call (which the code
stored in `last_request_time`) are spaced at least the interval apart: the
caller is blocked by a positive sleep and the second dispatch time is at least
`t1 + minRequestInterval`. -/
theorem geminiRateLimit_spacing (t1 now2 : ℚ) (hmono : t1 ≤ now2)
    (hclose : now2 - t1 < minRequestInterval) :
    0 < (rateLimit minRequestInterval t1 now2).1 ∧
    minRequestInterval ≤ (rateLimit minRequestInterval t1 now2).2 - t1 := by
  have h1 : (rateLimit minRequestInterval t1 now2).1
      = minRequestInterval - (now2 - t1) := by
    simp only [rateLimit]
    rw [if_pos hclose]
  have h2 : (rateLimit minRequestInterval t1 now2).2
      = now2 + (minRequestInterval - (now2 - t1)) := by
    simp only [rateLimit]
    rw [if_pos hclose]
  rw [h1, h2]
  have hm : (0 : ℚ) ≤ now2 - t1 := by linarith
  constructor <;> linarith

/-- Witness for C8 with the second call entering exactly at the dispatch time
of the first call. -/
theorem geminiRateLimit_spacing_witness :
    0 < (rateLimit minRequestInterval 0 0).1 ∧
    minRequestInterval ≤ (rateLimit minRequestInterval 0 0).2 - 0 :=
  geminiRateLimit_spacing 0 0 (by simp) (by simp [minRequestInterval])
